import Mathlib

/-!
Shallow embedding of `src/packages/frontend/src/pages/Stake/StakeWidget.tsx`
(the staking widget of the Hop frontend).

Conventions of the embedding:

* An ethers `BigNumber` is an arbitrary-precision integer, embedded as `Int`.
  `BigNumber.div` is integer division truncating toward zero (`Int.tdiv`) and
  throws on a zero divisor; the fallible form is `bnDivE` below.
* A JavaScript value that may be `undefined` is an `Option`.  JavaScript
  truthiness matters in the source and is embedded faithfully:
  a `BigNumber` is an object and hence truthy even when it equals 0, while
  the number `0`, the empty string and `undefined` are falsy.
* React hook state (`useMemo` / `useAsyncMemo` / `usePollValue`) is embedded
  by making each memoized computation a pure function of the values it reads;
  fetches performed inside a computation (`rewardRate()`, the AMM valuation
  call, token decimals) become explicit parameters.
* The collaborator interfaces of the widget (txConfirm, the transaction
  tracker, the network connector, the signer) are external to the component;
  an action (`stake`, `withdraw`) is embedded as a pure function from its
  inputs - which include the collaborator responses such as whether the
  network check passes and whether the user confirms the prompt - to the
  record of observable effects the action performs.
-/

namespace StakeWidget

/-- ethers `BigNumber.div`: integer division truncating toward zero; the call
throws when the divisor is zero, so the fallible form returns `Except`. -/
def bnDivE (a b : Int) : Except Unit Int :=
  if b = 0 then .error () else .ok (Int.tdiv a b)

/-- `TOTAL_AMOUNTS_DECIMALS` (line 61 of the source). -/
def TOTAL_AMOUNTS_DECIMALS : Nat := 18

/-- Modelled from the spec: `shiftBNDecimals` lives in `src/utils`, which is
not among the provided files.  Spec section 4.1 (FixedPointMath.rescale):
multiply or divide by `10 ^ |delta|` as appropriate; scaling up pads zeros,
scaling down truncates toward zero. -/
def shiftBNDecimals (x : Int) (d : Int) : Int :=
  if 0 ≤ d then x * 10 ^ d.toNat else Int.tdiv x (10 ^ (-d).toNat)

/-- `needsApproval` (lines 138-143): `undefined` unless `address`, `allowance`
and `parsedAmount` are all truthy (a fetched `BigNumber` is truthy regardless
of its value), otherwise `allowance.lt(parsedAmount)`. -/
def needsApproval (addressPresent : Bool) (allowance parsedAmount : Option Int) :
    Option Bool :=
  match allowance, parsedAmount with
  | some al, some pa => if addressPresent then some (decide (al < pa)) else none
  | _, _ => none

/-- `isStakeEnabled` (lines 145-150): `false` when `parsedAmount` or
`lpBalance` is absent, `false` when `needsApproval` is truthy (only
`some true` is truthy: `undefined` and `false` are both falsy), `false` when
`parsedAmount.gt(lpBalance)`, otherwise `true`. -/
def isStakeEnabled (parsedAmount lpBalance : Option Int) (needsAppr : Option Bool) :
    Bool :=
  match parsedAmount, lpBalance with
  | some pa, some lb =>
    if needsAppr = some true then false
    else if lb < pa then false
    else true
  | _, _ => false

/-- `rewardsExpired` (lines 171-177): `expireDate` is the fetched
`periodFinish` timestamp as a JavaScript number; `if (!expireDate) return`
makes the result `undefined` both when the fetch has not resolved and when
the fetched timestamp is `0` (the number 0 is falsy); otherwise
`now > expireDate` with `now = (Date.now() / 1000) | 0`. -/
def rewardsExpired (expireDate : Option Int) (now : Int) : Option Bool :=
  match expireDate with
  | none => none
  | some d => if d = 0 then none else some (decide (d < now))

/-- `totalRewardsPerDay` (lines 179-192): `undefined` unless `stakingRewards`
is present and `rewardsExpired !== undefined`; `BigNumber.from('0')` when
expired; otherwise the fetched `rewardRate` times 86400. -/
def totalRewardsPerDay (stakingRewardsPresent : Bool) (rewardsExpiredV : Option Bool)
    (rewardRate : Int) : Option Int :=
  match rewardsExpiredV with
  | none => none
  | some exp =>
    if stakingRewardsPresent then
      if exp then some 0 else some (rewardRate * 86400)
    else none

/-- The JavaScript value `userRewardsPerDay` (lines 194-217) can take: it is
`undefined` when the entry guard fails, the number `0` when rewards are
expired, the empty string when the body throws (the `catch` returns `''` -
in particular on the division by zero that a zero `totalStaked` causes), and
a `BigNumber` otherwise.  `undefinedVal`, `emptyStr` and `num 0` are falsy in
JavaScript; `bn x` is an object and always truthy. -/
inductive RewardsVal where
  | undefinedVal : RewardsVal
  | emptyStr : RewardsVal
  | num : Int → RewardsVal
  | bn : Int → RewardsVal
deriving DecidableEq, Repr

/-- A `RewardsVal` that carries no numeric value: `undefined` or the
empty-string sentinel the `catch` handler returns.  Both are falsy, are
rendered by the page exactly like an absent metric (`!!userRewardsPerDay`
guards the row), and are distinct from the number `0` and from every
`BigNumber`. -/
def isAbsentVal : RewardsVal → Bool
  | .undefinedVal => true
  | .emptyStr => true
  | .num _ => false
  | .bn _ => false

/-- `userRewardsPerDay` (lines 194-217).  Guard: `stakingRewards`,
`stakeBalance` and `totalStaked` truthy (fetched `BigNumber`s are truthy even
at 0), `stakeBalance.gt(0)`, and `typeof rewardsExpired === 'boolean'`;
otherwise `undefined`.  When expired the number `0` is returned.  Otherwise
`rewardRate * 86400 * stakeBalance` is divided by `totalStaked`; the
division throws when `totalStaked` is zero and the `catch` returns `''`. -/
def userRewardsPerDay (stakingRewardsPresent : Bool) (stakeBalance totalStaked : Option Int)
    (rewardsExpiredV : Option Bool) (rewardRate : Int) : RewardsVal :=
  match stakeBalance, totalStaked, rewardsExpiredV with
  | some sb, some ts, some exp =>
    if stakingRewardsPresent ∧ 0 < sb then
      if exp then .num 0
      else
        match bnDivE (rewardRate * 86400 * sb) ts with
        | .ok v => .bn v
        | .error _ => .emptyStr
    else .undefinedVal
  | _, _, _ => .undefinedVal

/-- `apr` (lines 220-255).  Guard: `bridge`, `network`, `totalStaked`,
`totalRewardsPerDay` truthy (`BigNumber`s: presence suffices) and both USD
prices truthy (they are JavaScript numbers: a price of 0 is falsy).  The two
prices are converted with `amountToBN(price.toString(), 18)`; the embedding
takes the converted 18-decimals fixed-point integers as inputs (the raw
number is 0 exactly when the converted integer is).  `stakedTotal` is the AMM
valuation `calculateTotalAmountForLpToken(totalStaked)`, abstracted as the
function `ammValuation`; `tokenDecimals` is the canonical token's decimals.
When `stakedTotal <= 0` the result is `BigNumber.from(0)`.  Otherwise the
formula of the source, with `precision = amountToBN('1', 18) = 10 ^ 18`; if
the denominator were zero the ethers division would throw and the `catch`
would yield `undefined`. -/
def apr (bridgePresent networkPresent : Bool) (totalStaked totalRewardsPerDayV : Option Int)
    (rewardTokenUsdPrice tokenUsdPrice : Option Int) (tokenDecimals : Nat)
    (ammValuation : Int → Int) : Option Int :=
  match totalStaked, totalRewardsPerDayV, rewardTokenUsdPrice, tokenUsdPrice with
  | some ts, some trpd, some rp, some tp =>
    if bridgePresent = true ∧ networkPresent = true ∧ rp ≠ 0 ∧ tp ≠ 0 then
      let stakedTotal := ammValuation ts
      if stakedTotal ≤ 0 then some 0
      else
        let stakedTotal18d :=
          shiftBNDecimals stakedTotal ((TOTAL_AMOUNTS_DECIMALS : Int) - tokenDecimals)
        let precision : Int := 10 ^ 18
        match bnDivE (trpd * rp * precision) (stakedTotal18d * tp) with
        | .ok q => some (q * 365)
        | .error _ => none
    else none
  | _, _, _, _ => none

/-- A contract write call the widget can dispatch through the connected
`stakingRewards` contract. -/
inductive ContractCall where
  | stakeCall : Option Int → ContractCall
  | exit : ContractCall
  | withdrawCall : Int → ContractCall
  | getReward : ContractCall
deriving DecidableEq, Repr

/-- The transaction object a confirmed contract call resolves to; `tx?.hash`
is truthy exactly when the hash string is nonempty. -/
structure Tx where
  hash : String
deriving DecidableEq, Repr

/-- The inputs of one invocation of the `stake` action (lines 304-345):
presence of the `stakingRewards` contract and of `network`, the answer of
`checkConnectedNetworkId`, presence of `txConfirm` (`txConfirm?.show`),
whether the user confirms the prompt (cancelling makes `show` resolve to
`undefined`), the hash of the transaction the confirmed call resolves to, and
`parsedAmount` (passed to `stakingRewards.stake`, possibly `undefined`). -/
structure StakeInput where
  stakingRewardsPresent : Bool
  networkPresent : Bool
  isNetworkConnected : Bool
  txConfirmPresent : Bool
  userConfirms : Bool
  submittedTxHash : String
  parsedAmount : Option Int
deriving DecidableEq, Repr

/-- The observable effects of one invocation of an action: whether the
confirmation prompt was shown (`txConfirm.show`), which contract call was
dispatched by `onConfirm`, whether `setAmount('')` ran, whether
`addTransaction` registered the transaction with the tracker, whether
`waitForTransaction` was awaited, and whether the top-level `catch` caught a
thrown error (no error ever escapes to the caller). -/
structure ActionEffects where
  confirmShown : Bool
  contractCall : Option ContractCall
  amountCleared : Bool
  txRegistered : Bool
  awaitedFinality : Bool
  errorCaught : Bool
deriving DecidableEq, Repr

/-- No observable effect. -/
def ActionEffects.none : ActionEffects :=
  { confirmShown := false, contractCall := Option.none, amountCleared := false,
    txRegistered := false, awaitedFinality := false, errorCaught := false }

/-- `stake()` (lines 304-345).  Missing `stakingRewards` or `network` throws,
and the throw is caught by the surrounding `catch`.  A failed network check
returns before `txConfirm?.show`.  Otherwise the prompt is shown (when
`txConfirm` is present); confirming runs `onConfirm`, which dispatches
`stakingRewards.connect(signer).stake(parsedAmount)` and resolves to the
transaction; cancelling resolves `show` to `undefined`.  Only under
`tx?.hash && network` does the action clear the input amount, register the
transaction with the tracker and await `waitForTransaction`. -/
def stake (i : StakeInput) : ActionEffects :=
  if ¬ i.stakingRewardsPresent ∨ ¬ i.networkPresent then
    { ActionEffects.none with errorCaught := true }
  else if ¬ i.isNetworkConnected then
    ActionEffects.none
  else
    let confirmed := i.txConfirmPresent && i.userConfirms
    let call : Option ContractCall :=
      if confirmed then some (.stakeCall i.parsedAmount) else none
    let tx : Option Tx := if confirmed then some ⟨i.submittedTxHash⟩ else none
    let registered :=
      match tx with
      | some t => decide (t.hash ≠ "")
      | none => false
    { confirmShown := i.txConfirmPresent, contractCall := call,
      amountCleared := registered, txRegistered := registered,
      awaitedFinality := registered, errorCaught := false }

/-- The inputs of one invocation of the `withdraw` action (lines 368-414).
`amountPercent` is the percentage the confirmation dialog passes to
`onConfirm` when the user confirms. -/
structure WithdrawInput where
  stakingRewardsPresent : Bool
  networkPresent : Bool
  stakeBalance : Option Int
  isNetworkConnected : Bool
  txConfirmPresent : Bool
  userConfirms : Bool
  amountPercent : Nat
  submittedTxHash : String
deriving DecidableEq, Repr

/-- The `onConfirm` callback of `withdraw` (lines 387-397): a falsy
(`!amountPercent`, i.e. zero) percentage dispatches nothing; exactly 100
dispatches `_stakingRewards.exit()`; any other percentage dispatches
`_stakingRewards.withdraw(stakeBalance.mul(amountPercent).div(100))`. -/
def withdrawOnConfirm (stakeBalance : Int) (amountPercent : Nat) : Option ContractCall :=
  if amountPercent = 0 then none
  else if amountPercent = 100 then some .exit
  else some (.withdrawCall (Int.tdiv (stakeBalance * (amountPercent : Int)) 100))

/-- `withdraw()` (lines 368-414).  Missing `stakingRewards`, `network` or
`stakeBalance` throws (caught by the surrounding `catch`; a fetched zero
balance is a truthy `BigNumber` and does not throw).  A failed network check
returns before `txConfirm?.show`.  Otherwise the prompt is shown (when
`txConfirm` is present); confirming runs `withdrawOnConfirm`, whose result -
when it dispatched a call - resolves to the transaction.  Under
`tx?.hash && network` the transaction is registered with the tracker and
awaited; unlike `stake`, the input amount is never cleared. -/
def withdraw (i : WithdrawInput) : ActionEffects :=
  match i.stakeBalance with
  | Option.none => { ActionEffects.none with errorCaught := true }
  | some sb =>
    if ¬ i.stakingRewardsPresent ∨ ¬ i.networkPresent then
      { ActionEffects.none with errorCaught := true }
    else if ¬ i.isNetworkConnected then
      ActionEffects.none
    else
      let confirmed := i.txConfirmPresent && i.userConfirms
      let call : Option ContractCall :=
        if confirmed then withdrawOnConfirm sb i.amountPercent else none
      let tx : Option Tx := if call.isSome then some ⟨i.submittedTxHash⟩ else none
      let registered :=
        match tx with
        | some t => decide (t.hash ≠ "")
        | Option.none => false
      { confirmShown := i.txConfirmPresent, contractCall := call,
        amountCleared := false, txRegistered := registered,
        awaitedFinality := registered, errorCaught := false }

/-- Claim C1: whenever `checkConnectedNetworkId` answers `false`, `stake()`
aborts before the confirmation prompt: `txConfirm.show` is never called, no
contract call is dispatched, and no transaction is registered with the
tracker. -/
theorem stake_wrong_network_aborts (i : StakeInput)
    (h : i.isNetworkConnected = false) :
    (stake i).confirmShown = false ∧ (stake i).contractCall = Option.none ∧
    (stake i).txRegistered = false := by
  cases hsr : i.stakingRewardsPresent <;> cases hn : i.networkPresent <;>
    simp [stake, hsr, hn, h, ActionEffects.none]

theorem stake_wrong_network_aborts_witness :
    (stake ⟨true, true, false, true, true, "0xabc", some 7⟩).confirmShown = false ∧
    (stake ⟨true, true, false, true, true, "0xabc", some 7⟩).contractCall = Option.none ∧
    (stake ⟨true, true, false, true, true, "0xabc", some 7⟩).txRegistered = false :=
  stake_wrong_network_aborts ⟨true, true, false, true, true, "0xabc", some 7⟩ rfl

/-- Claim C2: a confirmed withdraw with known `stakeBalance` and a chosen
percentage between 1 and 100 dispatches `exit()` exactly when the percentage
is 100, and otherwise a partial `withdraw` of exactly
`stakeBalance * percent / 100` with truncating integer division. -/
theorem withdraw_percent_dispatch (i : WithdrawInput) (sb : Int)
    (hsb : i.stakeBalance = some sb) (hsr : i.stakingRewardsPresent = true)
    (hn : i.networkPresent = true) (hc : i.isNetworkConnected = true)
    (htc : i.txConfirmPresent = true) (hu : i.userConfirms = true)
    (hp1 : 1 ≤ i.amountPercent) (hp2 : i.amountPercent ≤ 100) :
    (i.amountPercent = 100 → (withdraw i).contractCall = some ContractCall.exit) ∧
    (i.amountPercent ≠ 100 → (withdraw i).contractCall
      = some (ContractCall.withdrawCall
          (Int.tdiv (sb * (i.amountPercent : Int)) 100))) := by
  have hcall : (withdraw i).contractCall = withdrawOnConfirm sb i.amountPercent := by
    simp [withdraw, hsb, hsr, hn, hc, htc, hu]
  have hz : i.amountPercent ≠ 0 := by omega
  constructor
  · intro h100
    rw [hcall]
    simp [withdrawOnConfirm, h100]
  · intro hne
    rw [hcall]
    simp [withdrawOnConfirm, hz, hne]

theorem withdraw_percent_dispatch_witness :
    ((100 : Nat) = 100 →
      (withdraw ⟨true, true, some 1000, true, true, true, 100, "0xabc"⟩).contractCall
        = some ContractCall.exit) ∧
    ((100 : Nat) ≠ 100 →
      (withdraw ⟨true, true, some 1000, true, true, true, 100, "0xabc"⟩).contractCall
        = some (ContractCall.withdrawCall (Int.tdiv (1000 * ((100 : Nat) : Int)) 100))) :=
  withdraw_percent_dispatch ⟨true, true, some 1000, true, true, true, 100, "0xabc"⟩
    1000 rfl rfl rfl rfl rfl rfl (by decide) (by decide)

/-- Claim C3: with rewards known not to be expired, `userRewardsPerDay` is
`totalRewardsPerDay * userStakeBalance / totalStaked` (integer arithmetic,
`totalRewardsPerDay = rewardRate * 86400`); when `totalStaked` is zero or the
user stake balance is zero the result carries no numeric value (it is the
`undefined` / caught-division-by-zero sentinel, never the number `0`, never a
`BigNumber` `0`, and never an escaping division-by-zero error). -/
theorem userRewardsPerDay_spec (srp : Bool) (b ts rr : Int)
    (hb : 0 < b) (hts : ts ≠ 0) :
    isAbsentVal (userRewardsPerDay srp (some b) (some 0) (some false) rr) = true ∧
    userRewardsPerDay srp (some b) (some 0) (some false) rr ≠ .num 0 ∧
    userRewardsPerDay srp (some b) (some 0) (some false) rr ≠ .bn 0 ∧
    isAbsentVal (userRewardsPerDay srp (some 0) (some ts) (some false) rr) = true ∧
    userRewardsPerDay true (some b) (some ts) (some false) rr
      = .bn (Int.tdiv (rr * 86400 * b) ts) := by
  have h0 : userRewardsPerDay srp (some b) (some 0) (some false) rr
      = if srp = true then RewardsVal.emptyStr else RewardsVal.undefinedVal := by
    cases srp
    · simp [userRewardsPerDay]
    · simp [userRewardsPerDay, hb, bnDivE]
  refine ⟨?_, ?_, ?_, ?_, ?_⟩
  · rw [h0]; cases srp <;> simp [isAbsentVal]
  · rw [h0]; cases srp <;> simp
  · rw [h0]; cases srp <;> simp
  · simp [userRewardsPerDay, isAbsentVal]
  · simp [userRewardsPerDay, hb, bnDivE, hts]

theorem userRewardsPerDay_spec_witness :
    isAbsentVal (userRewardsPerDay true (some 2) (some 0) (some false) 3) = true ∧
    userRewardsPerDay true (some 2) (some 0) (some false) 3 ≠ .num 0 ∧
    userRewardsPerDay true (some 2) (some 0) (some false) 3 ≠ .bn 0 ∧
    isAbsentVal (userRewardsPerDay true (some 0) (some 5) (some false) 3) = true ∧
    userRewardsPerDay true (some 2) (some 5) (some false) 3
      = .bn (Int.tdiv (3 * 86400 * 2) 5) :=
  userRewardsPerDay_spec true 2 5 3 (by decide) (by decide)

/-- Claim C4: with expiry known, `totalRewardsPerDay` is `0` when expired and
`rewardRate * 86400` when not; when expired, `userRewardsPerDay` is the
number `0` whenever it is defined at all; and in the concrete scenario
`stakeBalance = 1000`, `totalStaked = 4000`, `rewardRate = 1`, not expired,
`totalRewardsPerDay = 86400` and `userRewardsPerDay = 21600`. -/
theorem totalRewardsPerDay_spec (srp : Bool) (sb ts : Option Int) (rr : Int) :
    totalRewardsPerDay true (some true) rr = some 0 ∧
    totalRewardsPerDay true (some false) rr = some (rr * 86400) ∧
    (userRewardsPerDay srp sb ts (some true) rr = .num 0 ∨
      userRewardsPerDay srp sb ts (some true) rr = .undefinedVal) ∧
    totalRewardsPerDay true (some false) 1 = some 86400 ∧
    userRewardsPerDay true (some 1000) (some 4000) (some false) 1 = .bn 21600 := by
  refine ⟨rfl, rfl, ?_, by decide, by decide⟩
  match sb, ts with
  | Option.none, _ => right; rfl
  | some sbv, Option.none => right; rfl
  | some sbv, some tsv =>
    by_cases h : srp = true ∧ 0 < sbv
    · left; simp [userRewardsPerDay, h]
    · right; simp [userRewardsPerDay, h]

/-- Claim C5: `needsApproval` is `allowance < inputAmount` whenever both are
known (and the address is present, which holds whenever an allowance has been
fetched), and is `undefined` whenever the allowance or the input amount is
unknown. -/
theorem needsApproval_spec (addr : Bool) (al pa : Option Int) (a m : Int) :
    needsApproval true (some a) (some m) = some (decide (a < m)) ∧
    needsApproval addr Option.none pa = Option.none ∧
    needsApproval addr al Option.none = Option.none := by
  refine ⟨rfl, ?_, ?_⟩
  · cases pa <;> rfl
  · cases al <;> rfl

/-- Claim C6: `isStakeEnabled` is `true` exactly when the input amount and
the balance are both present, `needsApproval` does not hold (`undefined` and
`false` both count as not holding), and the amount is at most the balance; in
particular it is `false` whenever `needsApproval` is `true`. -/
theorem isStakeEnabled_spec (pa lb : Option Int) (na : Option Bool) :
    (isStakeEnabled pa lb na = true ↔
      ∃ a b, pa = some a ∧ lb = some b ∧ na ≠ some true ∧ a ≤ b) ∧
    isStakeEnabled pa lb (some true) = false := by
  constructor
  · match pa, lb with
    | Option.none, _ => simp [isStakeEnabled]
    | some a, Option.none => simp [isStakeEnabled]
    | some a, some b =>
      by_cases hna : na = some true
      · subst hna; simp [isStakeEnabled]
      · constructor
        · intro h
          refine ⟨a, b, rfl, rfl, hna, ?_⟩
          by_contra hab
          have hba : b < a := lt_of_not_le hab
          simp [isStakeEnabled, hna, hba] at h
        · rintro ⟨x, y, hx, hy, -, hxy⟩
          obtain rfl : a = x := by injection hx
          obtain rfl : b = y := by injection hy
          simp [isStakeEnabled, hna, not_lt_of_le hxy]
  · match pa, lb with
    | Option.none, _ => rfl
    | some a, Option.none => rfl
    | some a, some b => simp [isStakeEnabled]

/-- Claim C7: with every input present (a truthy price is a nonzero one),
`apr` is `0` when the AMM valuation of the total staked LP amount is at most
zero, and otherwise equals
`totalRewardsPerDay * rewardTokenUsdPrice * 10^18`, divided (truncating)
by the valuation rescaled to 18 decimals times the staking-token USD price,
times 365 - all in integer fixed-point arithmetic. -/
theorem apr_spec (ts trpd rp tp : Int) (d : Nat) (f : Int → Int)
    (hrp : 0 < rp) (htp : 0 < tp) (hd : d ≤ 18) :
    (f ts ≤ 0 →
      apr true true (some ts) (some trpd) (some rp) (some tp) d f = some 0) ∧
    (0 < f ts →
      apr true true (some ts) (some trpd) (some rp) (some tp) d f
        = some (Int.tdiv (trpd * rp * 10 ^ 18)
            (shiftBNDecimals (f ts) ((TOTAL_AMOUNTS_DECIMALS : Int) - d) * tp)
            * 365)) := by
  constructor
  · intro hle
    simp [apr, hrp.ne', htp.ne', hle]
  · intro hpos
    have hnle : ¬ f ts ≤ 0 := not_le.mpr hpos
    have hdle : (0 : Int) ≤ (TOTAL_AMOUNTS_DECIMALS : Int) - d := by
      unfold TOTAL_AMOUNTS_DECIMALS; omega
    have hshift : 0 < shiftBNDecimals (f ts) ((TOTAL_AMOUNTS_DECIMALS : Int) - d) := by
      unfold shiftBNDecimals
      rw [if_pos hdle]
      exact mul_pos hpos (pow_pos (by norm_num) _)
    have hden : shiftBNDecimals (f ts) ((TOTAL_AMOUNTS_DECIMALS : Int) - d) * tp ≠ 0 :=
      (mul_pos hshift htp).ne'
    simp [apr, hrp.ne', htp.ne', hnle, bnDivE, hden]

theorem apr_spec_witness :
    (0 : Int) < (fun x => x + 3) 1 ∧
    apr true true (some 1) (some 2) (some 3) (some 5) 18 (fun x => x + 3)
      = some (Int.tdiv (2 * 3 * 10 ^ 18)
          (shiftBNDecimals ((fun x => x + 3) 1) ((TOTAL_AMOUNTS_DECIMALS : Int) - 18) * 5)
          * 365) :=
  ⟨by decide,
    (apr_spec 1 2 3 5 18 (fun x => x + 3) (by decide) (by decide) (by decide)).2
      (by decide)⟩

/-- Claim C8: when the user cancels the stake confirmation (the prompt
resolves to `undefined`), the action mutates nothing: the input amount is not
cleared, no transaction is registered with the tracker, finality is not
awaited, and no error is raised or caught. -/
theorem stake_cancel_no_mutation (i : StakeInput)
    (hsr : i.stakingRewardsPresent = true) (hn : i.networkPresent = true)
    (hc : i.isNetworkConnected = true) (htc : i.txConfirmPresent = true)
    (hu : i.userConfirms = false) :
    (stake i).amountCleared = false ∧ (stake i).txRegistered = false ∧
    (stake i).awaitedFinality = false ∧ (stake i).errorCaught = false := by
  simp [stake, hsr, hn, hc, htc, hu]

theorem stake_cancel_no_mutation_witness :
    (stake ⟨true, true, true, true, false, "0xabc", some 7⟩).amountCleared = false ∧
    (stake ⟨true, true, true, true, false, "0xabc", some 7⟩).txRegistered = false ∧
    (stake ⟨true, true, true, true, false, "0xabc", some 7⟩).awaitedFinality = false ∧
    (stake ⟨true, true, true, true, false, "0xabc", some 7⟩).errorCaught = false :=
  stake_cancel_no_mutation ⟨true, true, true, true, false, "0xabc", some 7⟩
    rfl rfl rfl rfl rfl

/-- Claim C9 (implicit): when the allowance has not been fetched,
`needsApproval` is `undefined` - which is falsy - so with an input amount and
a balance present and the amount at most the balance, `isStakeEnabled` is
already `true` before the approval requirement is known. -/
theorem stake_enabled_before_allowance_known (addr : Bool) (a b : Int)
    (h : a ≤ b) :
    needsApproval addr Option.none (some a) = Option.none ∧
    isStakeEnabled (some a) (some b) (needsApproval addr Option.none (some a)) = true := by
  refine ⟨rfl, ?_⟩
  simp [needsApproval, isStakeEnabled, not_lt_of_le h]

theorem stake_enabled_before_allowance_known_witness :
    needsApproval true Option.none (some 5) = Option.none ∧
    isStakeEnabled (some 5) (some 7) (needsApproval true Option.none (some 5)) = true :=
  stake_enabled_before_allowance_known true 5 7 (by decide)

/-- Claim C10 (implicit): `rewardsExpired` is a defined boolean only for a
fetched nonzero `periodFinish` timestamp: a fetched timestamp of `0` is falsy
and yields `undefined` - not `true` - even at a positive current time, while
a nonzero timestamp yields exactly `now > timestamp`. -/
theorem rewardsExpired_zero_timestamp (now d : Int) (_hnow : 0 < now)
    (hd : d ≠ 0) :
    rewardsExpired (some 0) now = Option.none ∧
    rewardsExpired Option.none now = Option.none ∧
    rewardsExpired (some d) now = some (decide (d < now)) := by
  refine ⟨rfl, rfl, ?_⟩
  simp [rewardsExpired, hd]

theorem rewardsExpired_zero_timestamp_witness :
    rewardsExpired (some 0) 5 = Option.none ∧
    rewardsExpired Option.none 5 = Option.none ∧
    rewardsExpired (some 3) 5 = some (decide ((3 : Int) < 5)) :=
  rewardsExpired_zero_timestamp 5 3 (by decide) (by decide)

end StakeWidget
